import Mathlib

/-!
# Verification of the HeliosEngine build/configure orchestrator

A shallow embedding of the toolchain-detection and configuration-resolution
scripts of the HeliosEngine repository (`scripts/configure.py` and
`scripts/build.py`), together with proofs settling the frozen claims about
the natural-language specification of that orchestrator.

Conventions of the embedding:
* Pure string manipulation from the scripts is translated to Lean string
  functions operating on `List Char`.
* The host (which executables `shutil.which` can resolve, what `vswhere`
  reports, which files exist) is modelled as an explicit record of the
  outcomes of those probes; the scripts' control flow over those outcomes is
  translated statement by statement.
* Interactive `input()` calls are modelled by explicit input events; a
  `KeyboardInterrupt`/`EOFError` raised at an `input()` that the source does
  not wrap in `try/except` is modelled by `Except.error` (the exception
  propagates out of the function), while a caught one is translated to the
  source's handler.
* Subprocess invocations are modelled by their observable outcome (the
  return code, the captured output lines), supplied as input fields.
* `os.environ` is modelled as an association list of variables.
-/

set_option autoImplicit false

namespace Helios

/-! ## Core data model -/

/-- CMake build types accepted by both scripts (`--type` choices). -/
inductive BuildType
  | debug
  | release
  | relWithDebInfo
  deriving DecidableEq, Repr

/-- Target platforms distinguished by `get_platform_name` /
`BuildConfig.get_platform_name`. -/
inductive Platform
  | windows
  | linux
  | macos
  deriving DecidableEq, Repr

/-- Resolved compiler identifiers, matching the strings stored in
`config.compiler` after resolution ("gcc", "clang", "clang-cl", "msvc"). -/
inductive Compiler
  | gcc
  | clang
  | clangCl
  | msvc
  deriving DecidableEq, Repr

/-- The string the scripts use for a resolved compiler. -/
def compilerName : Compiler → String
  | .gcc => "gcc"
  | .clang => "clang"
  | .clangCl => "clang-cl"
  | .msvc => "msvc"

/-- The exact capitalisation used for `--type` values and
`CMAKE_BUILD_TYPE`. -/
def buildTypeStr : BuildType → String
  | .debug => "Debug"
  | .release => "Release"
  | .relWithDebInfo => "RelWithDebInfo"

/-- `get_platform_name` from `configure.py` (`BuildConfig.get_platform_name`)
and `build.py` (`get_platform_name`): the lowercase platform directory
name. -/
def platformName : Platform → String
  | .windows => "windows"
  | .linux => "linux"
  | .macos => "macos"

/-! ## String helpers

`configure.py` classifies cached compiler strings with Python's `in`
(substring containment), `str.lower`, and `Path(...).name`.  We translate
those primitives here. -/

/-- Drop leading whitespace characters. -/
def dropWS : List Char → List Char
  | [] => []
  | c :: rest => if c.isWhitespace then dropWS rest else c :: rest

/-- Python's `str.strip()`: remove leading and trailing whitespace.
(Structurally recursive, unlike `String.trim`, so that concrete runs reduce
inside the kernel.) -/
def strTrim (s : String) : String :=
  String.mk ((dropWS (dropWS s.toList).reverse).reverse)

/-- Python's `str.lower()` (ASCII case folding suffices for the strings the
scripts compare). -/
def strLower (s : String) : String :=
  String.mk (s.toList.map Char.toLower)

/-- Helper for `strToNat`: accumulate decimal digits, failing on any
non-digit. -/
def digitsToNat (acc : Nat) : List Char → Option Nat
  | [] => some acc
  | c :: rest =>
    if c.isDigit then digitsToNat (acc * 10 + (c.toNat - 48)) rest else none

/-- Python's `int(s)` restricted to the selector's use: a non-empty digit
string parses, anything else raises `ValueError` (negative numbers would
fail the subsequent range checks exactly as `none` does here). -/
def strToNat (s : String) : Option Nat :=
  if s.toList.isEmpty then none else digitsToNat 0 s.toList

/-- Whether `p` is a prefix of `s` (character lists). -/
def charsPrefix : List Char → List Char → Bool
  | [], _ => true
  | _ :: _, [] => false
  | a :: p, b :: s => a == b && charsPrefix p s

/-- Whether `p` occurs as a contiguous segment of `s` (character lists). -/
def charsSegment (p : List Char) : List Char → Bool
  | [] => charsPrefix p []
  | c :: rest => charsPrefix p (c :: rest) || charsSegment p rest

/-- Python's `pat in s` on strings: substring containment. -/
def strHas (pat s : String) : Bool :=
  charsSegment pat.toList s.toList

/-- Helper for `pathName`: accumulate the current path component, resetting
at every `/` or `\` separator. -/
def pathNameAux : List Char → List Char → List Char
  | acc, [] => acc.reverse
  | acc, c :: rest =>
    if c == '/' || c == '\\' then pathNameAux [] rest
    else pathNameAux (c :: acc) rest

/-- Python's `Path(s).name`: the final path component (the script runs this
on Windows, where both separators split). -/
def pathName (s : String) : String :=
  String.mk (pathNameAux [] s.toList)

/-- `build_type.lower()` as used by `get_build_dir` in both scripts. -/
def buildTypeDirName (bt : BuildType) : String :=
  strLower (buildTypeStr bt)

/-! ## Environment model (`os.environ` and `key=value` merging)

`CompilerDetector.setup_msvc_environment` (configure.py lines 529-534) and
`setup_msvc_environment` (build.py lines 479-482) both run the vendor script
chained with `set` and merge each `key=value` output line into an
environment dictionary:

```
for line in out.splitlines():
    if "=" in line:
        key, _, value = line.partition("=")
        env[key] = value
```
-/

/-- An environment: association list from variable names to values. -/
abbrev Env := List (String × String)

/-- Dictionary lookup (`env.get(k)`): first binding wins. -/
def envGet (e : Env) (k : String) : Option String :=
  match e with
  | [] => none
  | (k', v) :: rest => if k' = k then some v else envGet rest k

/-- Dictionary assignment `env[k] = v`: overwrite the binding if present,
append otherwise. -/
def envSet (e : Env) (k v : String) : Env :=
  match e with
  | [] => [(k, v)]
  | (k', v') :: rest => if k' = k then (k, v) :: rest else (k', v') :: envSet rest k v

/-- `line.partition("=")` restricted to the case `"=" in line`: split at the
first `=`, returning the key and value character lists. -/
def splitAtEq : List Char → Option (List Char × List Char)
  | [] => none
  | c :: rest =>
    if c == '=' then some ([], rest)
    else match splitAtEq rest with
      | none => none
      | some (k, v) => some (c :: k, v)

/-- Parse one captured output line the way the merge loop does: lines
without `=` are skipped, others are split at the first `=`. -/
def parseEnvLine (line : String) : Option (String × String) :=
  match splitAtEq line.toList with
  | none => none
  | some (k, v) => some (String.mk k, String.mk v)

/-- The merge loop itself: fold the `key=value` lines into the
environment. -/
def mergeEnvLines (e : Env) (lines : List String) : Env :=
  lines.foldl
    (fun acc line =>
      match parseEnvLine line with
      | none => acc
      | some (k, v) => envSet acc k v)
    e

/-- The value assigned to variable `k` by the *last* line of `lines` that
mentions it as a key, if any. -/
def lastEnvValue (k : String) : List String → Option String
  | [] => none
  | line :: rest =>
    match lastEnvValue k rest with
    | some v => some v
    | none =>
      match parseEnvLine line with
      | none => none
      | some (k', v) => if k' = k then some v else none

/-! ## Build directory (`get_build_dir`)

`BuildConfig.get_build_dir` (configure.py lines 238-243) and `get_build_dir`
(build.py lines 126-130): `project_root / "build" / build_type_lower /
platform_name`.  A filesystem path is modelled as its list of components. -/

/-- A resolved configuration, as assembled by `configure.py` (the fields of
`BuildConfig` that survive resolution). -/
structure ResolvedConfig where
  buildType : BuildType
  platform : Platform
  coreOnly : Bool
  buildTests : Bool
  buildExamples : Bool
  useConan : Bool
  deriving DecidableEq, Repr

/-- `get_build_dir`: only `build_type` and the platform name enter the
path; the module/test/example/Conan fields of the configuration do not. -/
def getBuildDir (projectRoot : List String) (c : ResolvedConfig) : List String :=
  projectRoot ++ ["build", buildTypeDirName c.buildType, platformName c.platform]

/-! ## Interactive input model

`input()` calls are modelled by explicit events.  A prompt the source wraps
in `try/except (KeyboardInterrupt, EOFError)` handles `.interrupt` (and an
exhausted event list, i.e. EOF); a bare `input()` lets it propagate, which
we model by `Except.error ()`. -/

/-- One interaction with the console: a line of text, or an interrupt
(`KeyboardInterrupt`, or `EOFError` at end of input). -/
inductive InputEv
  | text (s : String)
  | interrupt
  deriving DecidableEq, Repr

/-- `ask_yes_no` (configure.py lines 125-152).  The `input()` here *is*
wrapped: interrupt or EOF prints a newline and returns `False`.  Unrecognised
answers re-prompt. -/
def askYesNo (default : Bool) : List InputEv → Bool
  | [] => false
  | .interrupt :: _ => false
  | .text s :: rest =>
    let response := strLower (strTrim s)
    if response = "" then default
    else if response = "y" || response = "yes" then true
    else if response = "n" || response = "no" then false
    else askYesNo default rest

/-! ## Host probing (`ToolchainDetector`)

The detector functions bottom out in `shutil.which` probes and a `vswhere`
subprocess; a `Host` records the outcome of each probe, and the detector
logic over those outcomes is translated directly. -/

/-- Outcomes of the host probes performed by `CompilerDetector` and
`BuildSystemSelector`. -/
structure Host where
  /-- `check_command("gcc") and check_command("g++")` (`detect_gcc`). -/
  hasGcc : Bool
  /-- `check_command("clang") and check_command("clang++")`. -/
  hasClang : Bool
  /-- `check_command("clang-cl")`, after `_setup_clang_cl_path` has tried to
  extend `PATH` from the well-known LLVM/VS install roots. -/
  hasClangCl : Bool
  /-- `detect_msvc`: `vswhere` reports a VC-tools installation with
  `vcvarsall.bat`, or `cl` is already on `PATH`. -/
  hasMsvc : Bool
  /-- The "2022"/"2019"/"2017" component of the installation path reported
  by `vswhere`, when recognisable. -/
  vsVersion : Option String
  /-- `check_command("ninja")` (`detect_ninja`). -/
  hasNinja : Bool
  /-- `check_command("make") or check_command("mingw32-make")`
  (`detect_make`). -/
  hasMake : Bool
  /-- `check_command("msbuild")` (fallback probe in `detect_msbuild`). -/
  hasMsbuildCmd : Bool
  deriving DecidableEq, Repr

/-- `CompilerDetector.detect_clang` (configure.py lines 570-599), returning
the variant: on Windows `clang-cl` is preferred whenever present, otherwise
plain `clang`; elsewhere only plain `clang` is probed. -/
def detectClang (isWindows : Bool) (h : Host) : Option Compiler :=
  if isWindows then
    if h.hasClangCl then some .clangCl
    else if h.hasClang then some .clang
    else none
  else if h.hasClang then some .clang
  else none

/-- `CompilerDetector.detect_msvc` (lines 330-387): availability plus the
Visual Studio version, Windows only. -/
def detectMsvc (isWindows : Bool) (h : Host) : Bool × Option String :=
  if isWindows then (h.hasMsvc, h.vsVersion) else (false, none)

/-- The cache-classification step of `setup_compiler` (lines 771-798):
recognise the `CMAKE_CXX_COMPILER` string recovered from `CMakeCache.txt`.
The `in` checks are substring containment, in source order. -/
def classifyCachedCompiler (s : String) : Option Compiler :=
  if strHas "g++" s || strHas "gcc" s then some .gcc
  else if strHas "clang-cl" s then some .clangCl
  else if strHas "clang++" s || strHas "clang" s then some .clang
  else if strHas "cl.exe" s || pathName s == "cl" || strHas "msvc" (strLower s) then
    some .msvc
  else none

/-- `CompilerDetector.select_compiler_interactive` (lines 601-692).
Returns `none` when no supported compiler is found (the Python `False`
return).  The two-way `input()` prompts at lines 642 and 680 are *not*
wrapped in `try/except`, so an interrupt there propagates (`Except.error`). -/
def selectCompilerInteractive (p : Platform) (h : Host) (ev : InputEv) :
    Except Unit (Option Compiler) :=
  match p with
  | .windows =>
    match h.hasMsvc, detectClang true h with
    | false, none => .ok none
    | true, none => .ok (some .msvc)
    | false, some v => .ok (some v)
    | true, some v =>
      match ev with
      | .interrupt => .error ()
      | .text s => .ok (some (if strTrim s = "2" then v else .msvc))
  | _ =>
    match h.hasGcc, detectClang false h with
    | false, none => .ok none
    | true, none => .ok (some .gcc)
    | false, some _ => .ok (some .clang)
    | true, some _ =>
      match ev with
      | .interrupt => .error ()
      | .text s => .ok (some (if strTrim s = "2" then .clang else .gcc))

/-- The explicit-compiler validation branch of `setup_compiler`
(lines 697-765): the user-supplied string is validated against the host and
normalised; `none` models the `return False` failure paths. -/
def setupExplicitCompiler (p : Platform) (c : String) (h : Host) : Option Compiler :=
  match p with
  | .windows =>
    if c = "msvc" || c = "cl" then
      if h.hasMsvc then some .msvc else none
    else if c = "clang" || c = "clang-cl" then
      match detectClang true h with
      | none => none
      | some variant =>
        if c = "clang-cl" then
          if variant ≠ .clangCl && !h.hasClangCl then none
          else some .clangCl
        else
          if variant = .clangCl && !h.hasClang then some .clangCl
          else some .clang
    else none
  | _ =>
    if c = "gcc" then
      if h.hasGcc then some .gcc else none
    else if c = "clang" then
      match detectClang false h with
      | some _ => some .clang
      | none => none
    else none

/-- Inputs of `CompilerDetector.setup_compiler` that the source consults. -/
structure CompilerQuery where
  platform : Platform
  interactive : Bool
  /-- `config.compiler` on entry (the explicit CLI value, or the value the
  caller's earlier interactive selection stored). -/
  explicitCompiler : Option String
  /-- The `CMAKE_CXX_COMPILER` entry of `get_build_dir()`'s
  `CMakeCache.txt`, when the file and the key exist. -/
  cacheCxx : Option String
  host : Host
  /-- Input event for the `select_compiler_interactive` call made from
  inside `setup_compiler`. -/
  selEv : InputEv
  deriving Repr

/-- Outcome of `setup_compiler`: the Python return value, the resolved
`config.compiler`, and whether any `detect_*` host probe was executed. -/
structure CompilerResult where
  ok : Bool
  compiler : Option Compiler
  probed : Bool
  deriving DecidableEq, Repr

/-- `CompilerDetector.setup_compiler` (lines 694-844).  With an explicit
compiler it validates (probing the host); otherwise a recognised cached
`CMAKE_CXX_COMPILER` is adopted with *no* probe; otherwise interactive
selection (interrupt propagates) or the non-interactive auto-detect chain
runs. -/
def setupCompiler (q : CompilerQuery) : Except Unit CompilerResult :=
  match q.explicitCompiler with
  | some c =>
    -- explicit value: validate, never consult cache or prompt
    match setupExplicitCompiler q.platform c q.host with
    | some comp => .ok ⟨true, some comp, true⟩
    | none => .ok ⟨false, none, true⟩
  | none =>
    -- lines 766-798: try the CMake cache first
    match q.cacheCxx with
    | some s =>
      match classifyCachedCompiler s with
      | some comp => .ok ⟨true, some comp, false⟩
      | none => setupCompilerDetect q    -- unknown value: "will auto-detect"
    | none => setupCompilerDetect q
where
  /-- lines 800-841: interactive selection or non-interactive
  auto-detection. -/
  setupCompilerDetect (q : CompilerQuery) : Except Unit CompilerResult :=
    if q.interactive then
      match selectCompilerInteractive q.platform q.host q.selEv with
      | .error e => .error e
      | .ok (some comp) => .ok ⟨true, some comp, true⟩
      | .ok none => .ok ⟨false, none, true⟩
    else
      match q.platform with
      | .windows =>
        if q.host.hasMsvc then .ok ⟨true, some .msvc, true⟩
        else
          match detectClang true q.host with
          | some v => .ok ⟨true, some v, true⟩
          | none => .ok ⟨false, none, true⟩
      | _ =>
        if q.host.hasGcc then .ok ⟨true, some .gcc, true⟩
        else
          match detectClang false q.host with
          | some _ => .ok ⟨true, some .clang, true⟩
          | none => .ok ⟨false, none, true⟩

/-- `BuildSystemSelector.detect_msbuild` (lines 863-889): the Visual Studio
generator string, Windows only. -/
def detectMsbuild (p : Platform) (h : Host) : Option String :=
  match p with
  | .windows =>
    if !h.hasMsvc then none
    else
      match h.vsVersion with
      | some "2022" => some "Visual Studio 17 2022"
      | some "2019" => some "Visual Studio 16 2019"
      | some "2017" => some "Visual Studio 15 2017"
      | _ => if h.hasMsbuildCmd then some "Visual Studio 17 2022" else none
  | _ => none

/-- `BuildSystemSelector.select_build_system_interactive` (lines 891-956).
The two-way `input()` prompts at lines 916 and 946 are unprotected, so an
interrupt propagates.  (On Unix the source maps answer "2" to `Make`, its
prompt text notwithstanding; we translate the code.) -/
def selectBuildSystemInteractive (p : Platform) (h : Host) (ev : InputEv) :
    Except Unit (Option String) :=
  match p with
  | .windows =>
    match detectMsbuild .windows h, h.hasNinja with
    | none, false => .ok none
    | none, true => .ok (some "Ninja")
    | some g, false => .ok (some g)
    | some g, true =>
      match ev with
      | .interrupt => .error ()
      | .text s => .ok (some (if strTrim s = "1" then g else "Ninja"))
  | _ =>
    match h.hasNinja, h.hasMake with
    | false, false => .ok none
    | true, false => .ok (some "Ninja")
    | false, true => .ok (some "Make")
    | true, true =>
      match ev with
      | .interrupt => .error ()
      | .text s => .ok (some (if strTrim s = "2" then "Make" else "Ninja"))

/-- Inputs of `BuildSystemSelector.setup_build_system`. -/
structure BuildSysQuery where
  platform : Platform
  interactive : Bool
  /-- `config.build_system` on entry. -/
  explicitBS : Option String
  host : Host
  selEv : InputEv
  deriving Repr

/-- `BuildSystemSelector.setup_build_system` (lines 958-1012).  An explicit
value is validated and normalised by its lowercase form; a value matching
none of the recognised names falls through *unvalidated*.  `none` models the
`return False` failure paths. -/
def setupBuildSystem (q : BuildSysQuery) : Except Unit (Option String) :=
  match q.explicitBS with
  | some bs =>
    let lower := strLower bs
    if lower = "ninja" then
      if q.host.hasNinja then .ok (some "Ninja") else .ok none
    else if lower = "make" || lower = "unix makefiles" then
      if q.host.hasMake then .ok (some "Unix Makefiles") else .ok none
    else if lower = "msbuild" || lower = "visual studio" then
      match detectMsbuild q.platform q.host with
      | some g => .ok (some g)
      | none => .ok none
    else .ok (some bs)
  | none =>
    if q.interactive then
      selectBuildSystemInteractive q.platform q.host q.selEv
    else
      match q.platform with
      | .windows =>
        if q.host.hasNinja then .ok (some "Ninja")
        else
          match detectMsbuild .windows q.host with
          | some g => .ok (some g)
          | none => .ok none
      | _ =>
        if q.host.hasNinja then .ok (some "Ninja")
        else if q.host.hasMake then .ok (some "Unix Makefiles")
        else .ok none

/-! ## Environment bootstrap (`setup_msvc_environment`)

Two distinct implementations exist.  `CompilerDetector.setup_msvc_environment`
(configure.py lines 389-563) merges the captured variables into
`os.environ` itself and then re-verifies the required tool;
`setup_msvc_environment` in build.py (lines 392-488) merges them into a
*local copy* `env = os.environ.copy()` and returns it, leaving the process
environment untouched. -/

/-- External observations made by the configure.py bootstrap. -/
structure BootstrapWorld where
  /-- Executables currently resolvable by `check_command` (i.e. via the
  process environment's `PATH`). -/
  tools : List String
  /-- A developer environment script (`vcvarsall.bat` / `VsDevCmd.bat` /
  `vcvars64.bat`) was located, via `vswhere` or the common install roots. -/
  scriptFound : Bool
  /-- The `"<script>" amd64 && set` subprocess exited zero. -/
  scriptRunOk : Bool
  /-- Executables resolvable after the captured `key=value` lines have been
  merged into `os.environ`. -/
  toolsAfterScript : List String
  deriving DecidableEq, Repr

/-- Outcome of the configure.py bootstrap: success flag, the
post-call resolvability state, and whether execution got past the
fast-path checks (only then are the `vswhere`/script subprocesses run). -/
structure BootstrapResult where
  ok : Bool
  tools : List String
  attempted : Bool
  deriving DecidableEq, Repr

/-- `CompilerDetector.setup_msvc_environment` (configure.py lines 389-563).
Needed only on Windows, for Ninja with MSVC or clang-cl; fast-paths when the
required tool (`cl`, or `mt` for clang-cl) already resolves; otherwise runs
the located developer script, merges its environment into `os.environ`, and
verifies the tool. -/
def setupMsvcEnvironment (p : Platform) (bs : Option String) (comp : Compiler)
    (w : BootstrapWorld) : BootstrapResult :=
  if p ≠ .windows then ⟨true, w.tools, false⟩
  else if bsSkips bs then ⟨true, w.tools, false⟩
  else if comp ≠ .msvc && comp ≠ .clangCl then ⟨true, w.tools, false⟩
  else if comp = .clangCl && (w.tools.contains "mt" || w.tools.contains "mt.exe") then
    ⟨true, w.tools, false⟩
  else if comp ≠ .clangCl && w.tools.contains "cl" then ⟨true, w.tools, false⟩
  else if !w.scriptFound then ⟨false, w.tools, true⟩
  else if !w.scriptRunOk then ⟨false, w.tools, true⟩
  else if comp = .clangCl then
    if w.toolsAfterScript.contains "mt" || w.toolsAfterScript.contains "mt.exe" then
      ⟨true, w.toolsAfterScript, true⟩
    else ⟨false, w.toolsAfterScript, true⟩
  else
    if w.toolsAfterScript.contains "cl" then ⟨true, w.toolsAfterScript, true⟩
    else ⟨false, w.toolsAfterScript, true⟩
where
  /-- line 396: `if self.config.build_system and "Ninja" not in
  self.config.build_system: return True`. -/
  bsSkips : Option String → Bool
    | none => false
    | some s => !strHas "Ninja" s

/-- External observations made by the build.py bootstrap. -/
structure BpWorld where
  isWindows : Bool
  /-- Executables resolvable via the *process* environment
  (`shutil.which` consults `os.environ`). -/
  procTools : List String
  /-- `"INCLUDE" in os.environ`. -/
  includeVarSet : Bool
  /-- A Visual Studio installation path was obtained (via `vswhere` or the
  common install roots). -/
  vsPathFound : Bool
  /-- `vcvarsall.bat` exists under that installation. -/
  vcvarsExists : Bool
  /-- The `"<vcvars>" amd64 && set` subprocess exited zero. -/
  vcvarsRunOk : Bool
  /-- Its captured stdout, split into lines. -/
  vcvarsLines : List String
  /-- `os.environ` as a dictionary (the function copies it). -/
  baseEnv : Env
  deriving Repr

/-- `setup_msvc_environment` from build.py (lines 392-488).  Returns the
(possibly merged) *local* environment dictionary and whether the `vcvars`
subprocess was spawned.  `os.environ` is never written: the process state
the next call observes is unchanged. -/
def bpSetupMsvcEnvironment (w : BpWorld) : Env × Bool :=
  if !w.isWindows then (w.baseEnv, false)
  else if w.procTools.contains "cl" && w.includeVarSet then (w.baseEnv, false)
  else if !w.vsPathFound then (w.baseEnv, false)
  else if !w.vcvarsExists then (w.baseEnv, false)
  else if !w.vcvarsRunOk then (w.baseEnv, true)
  else (mergeEnvLines w.baseEnv w.vcvarsLines, true)

/-- Two sequential invocations of build.py's bootstrap.  Because the
function only ever writes a local copy of the environment, the second call's
input world is the same as the first's. -/
def bpSetupTwice (w : BpWorld) : (Env × Bool) × (Env × Bool) :=
  (bpSetupMsvcEnvironment w, bpSetupMsvcEnvironment w)

/-! ## Remaining interactive prompts of configure.py -/

/-- `CMakeBuilder.select_build_type_interactive` (lines 1169-1183); the
`input()` at line 1176 is unprotected. -/
def selectBuildTypeInteractive (ev : InputEv) : Except Unit BuildType :=
  match ev with
  | .interrupt => .error ()
  | .text s =>
    let c := strTrim s
    .ok (if c = "1" then .debug else if c = "2" then .relWithDebInfo else .release)

/-- `CMakeBuilder.select_modules_interactive` (lines 1185-1196); the
`input()` at line 1191 is unprotected.  Returns `core_only`. -/
def selectModulesInteractive (ev : InputEv) : Except Unit Bool :=
  match ev with
  | .interrupt => .error ()
  | .text s => .ok (strTrim s = "1")

/-- `CMakeBuilder.select_tests_and_examples_interactive` (lines 1198-1211):
prompts (via the interrupt-catching `ask_yes_no`, default No) only for the
fields still unset. -/
def selectTestsExamplesInteractive (tests examples : Option Bool)
    (testsEvs examplesEvs : List InputEv) : Bool × Bool :=
  (match tests with
   | some b => b
   | none => askYesNo false testsEvs,
   match examples with
   | some b => b
   | none => askYesNo false examplesEvs)

/-! ## Conan (`ConanManager.setup_conan`, lines 1015-1160)

The dependency manager (`install_deps.py`) is run as a subprocess only on
the interactive consent path; its non-zero exit is *tolerated*: Conan is
disabled and `setup_conan` still returns `True`. -/

/-- Outcome of `setup_conan`: the Python return value, the resolved
`config.use_conan`, whether a toolchain file was adopted, and whether the
`install_deps.py` subprocess was spawned. -/
structure ConanResult where
  ok : Bool
  useConan : Bool
  toolchain : Bool
  ranInstall : Bool
  deriving DecidableEq, Repr

/-- The "toolchain not found" block of `setup_conan` (lines 1087-1160). -/
def conanInstallBlock (interactive installScriptExists : Bool)
    (installDepsRc : Int) (toolchainAfterInstall : Bool)
    (installEvs : List InputEv) : ConanResult :=
  if !installScriptExists then ⟨true, false, false, false⟩
  else if interactive then
    if askYesNo true installEvs then
      if installDepsRc ≠ 0 then ⟨true, false, false, true⟩
      else if toolchainAfterInstall then ⟨true, true, true, true⟩
      else ⟨true, false, false, true⟩
    else ⟨true, false, false, false⟩
  else ⟨true, false, false, false⟩

/-- `ConanManager.setup_conan` together with `ask_use_conan`
(lines 1033-1160).  `useConanFlag`/`noConanFlag` are the `--use-conan` /
`--no-conan` CLI flags (main lines 1604-1608). -/
def setupConan (interactive useConanFlag noConanFlag : Bool)
    (toolchainExists installScriptExists : Bool) (installDepsRc : Int)
    (toolchainAfterInstall : Bool)
    (useEvs reinstallEvs installEvs : List InputEv) : ConanResult :=
  let use :=
    if useConanFlag then true
    else if noConanFlag then false
    else if toolchainExists then true
    else if !interactive then false
    else askYesNo true useEvs
  if !use then ⟨true, false, false, false⟩
  else if toolchainExists then
    if interactive then
      if askYesNo false reinstallEvs then
        conanInstallBlock interactive installScriptExists installDepsRc
          toolchainAfterInstall installEvs
      else ⟨true, true, true, false⟩
    else ⟨true, true, true, false⟩
  else
    conanInstallBlock interactive installScriptExists installDepsRc
      toolchainAfterInstall installEvs

/-! ## The configure.py orchestrator (`main`, lines 1583-1715) -/

/-- The command-line arguments of configure.py (after `argparse`). -/
structure ConfigureArgs where
  explicitType : Option BuildType
  explicitCompiler : Option String
  explicitBS : Option String
  coreOnlyFlag : Bool
  testsFlag : Option Bool
  examplesFlag : Option Bool
  useConanFlag : Bool
  noConanFlag : Bool
  cleanFlag : Bool
  noInteractive : Bool
  deriving Repr

/-- The scripted console input, one slot per prompt site of a single run. -/
structure PromptScript where
  modulesEv : InputEv
  testsEvs : List InputEv
  examplesEvs : List InputEv
  buildTypeEv : InputEv
  /-- `select_compiler_interactive` called directly from `main`
  (line 1643). -/
  compilerSelEv : InputEv
  /-- `select_compiler_interactive` re-invoked from inside
  `setup_compiler`. -/
  compilerSetupEv : InputEv
  /-- `select_build_system_interactive` called directly from `main`
  (line 1649). -/
  buildSysSelEv : InputEv
  /-- `select_build_system_interactive` re-invoked from inside
  `setup_build_system`. -/
  buildSysSetupEv : InputEv
  conanUseEvs : List InputEv
  conanReinstallEvs : List InputEv
  conanInstallEvs : List InputEv
  deriving Repr

/-- External observations of one configure.py run. -/
structure ConfigureWorld where
  platform : Platform
  host : Host
  /-- `check_command("cmake")` (line 1620). -/
  cmakeOnPath : Bool
  /-- The `CMAKE_CXX_COMPILER` entry of `get_build_dir()`'s cache. -/
  cacheCxx : Option String
  /-- `conan_toolchain.cmake` exists in the build directory. -/
  toolchainExists : Bool
  /-- `install_deps.py` exists next to the script. -/
  installScriptExists : Bool
  /-- Return code of the `install_deps.py` subprocess, when spawned. -/
  installDepsRc : Int
  /-- The toolchain file exists after a dependency install. -/
  toolchainAfterInstall : Bool
  /-- Return code of the `cmake -S .. -B ..` configure subprocess. -/
  cmakeConfigureRc : Int
  deriving Repr

/-- The configuration fields resolved by `main` before Conan and CMake
run. -/
structure ResolvedCore where
  buildType : BuildType
  coreOnly : Bool
  buildTests : Bool
  buildExamples : Bool
  compiler : Compiler
  buildSystem : String
  deriving DecidableEq, Repr

/-- The resolution phase of configure.py `main` (lines 1617-1695): the
cmake presence check, then — interactively — modules, tests/examples, build
type, compiler, build system and the MSVC environment, or — non-
interactively — the defaults (`Release`, no core-only, no tests, no
examples) followed by auto-detection.  `.ok none` models `return 1`. -/
def resolveConfig (a : ConfigureArgs) (w : ConfigureWorld) (ps : PromptScript)
    (bw : BootstrapWorld) : Except Unit (Option ResolvedCore) :=
  if !w.cmakeOnPath then .ok none
  else if !a.noInteractive then
    -- 1. modules
    match (if a.coreOnlyFlag then .ok true else selectModulesInteractive ps.modulesEv :
        Except Unit Bool) with
    | .error e => .error e
    | .ok coreOnly =>
      -- 2. tests/examples
      let (tests, examples) := selectTestsExamplesInteractive a.testsFlag
        a.examplesFlag ps.testsEvs ps.examplesEvs
      -- 3. build type
      match (match a.explicitType with
             | some t => .ok t
             | none => selectBuildTypeInteractive ps.buildTypeEv :
          Except Unit BuildType) with
      | .error e => .error e
      | .ok bt =>
        -- 4. compiler: main pre-selects interactively when unset
        -- (line 1643, result ignored), then `setup_compiler` validates
        match (match a.explicitCompiler with
               | some c => .ok (some c)
               | none =>
                 match selectCompilerInteractive w.platform w.host ps.compilerSelEv with
                 | .error e => .error e
                 | .ok sel => .ok (sel.map compilerName) :
            Except Unit (Option String)) with
        | .error e => .error e
        | .ok pre =>
          match setupCompiler ⟨w.platform, true, pre, w.cacheCxx, w.host,
              ps.compilerSetupEv⟩ with
          | .error e => .error e
          | .ok cres =>
            match cres.compiler, cres.ok with
            | some comp, true =>
              -- 5. build system: same pre-selection pattern (line 1649)
              match (match a.explicitBS with
                     | some b => .ok (some b)
                     | none =>
                       selectBuildSystemInteractive w.platform w.host ps.buildSysSelEv :
                  Except Unit (Option String)) with
              | .error e => .error e
              | .ok preBS =>
                match setupBuildSystem ⟨w.platform, true, preBS, w.host,
                    ps.buildSysSetupEv⟩ with
                | .error e => .error e
                | .ok none => .ok none
                | .ok (some bs) =>
                  -- MSVC environment (lines 1652-1664)
                  let boot := setupMsvcEnvironment w.platform (some bs) comp bw
                  if !boot.ok && (comp = .msvc || comp = .clangCl) then .ok none
                  else .ok (some ⟨bt, coreOnly, tests, examples, comp, bs⟩)
            | _, _ => .ok none
  else
    -- non-interactive defaults (lines 1666-1674)
    let bt := a.explicitType.getD .release
    let coreOnly := a.coreOnlyFlag
    let tests := a.testsFlag.getD false
    let examples := a.examplesFlag.getD false
    match setupCompiler ⟨w.platform, false, a.explicitCompiler, w.cacheCxx,
        w.host, ps.compilerSetupEv⟩ with
    | .error e => .error e
    | .ok cres =>
      match cres.compiler, cres.ok with
      | some comp, true =>
        match setupBuildSystem ⟨w.platform, false, a.explicitBS, w.host,
            ps.buildSysSetupEv⟩ with
        | .error e => .error e
        | .ok none => .ok none
        | .ok (some bs) =>
          let boot := setupMsvcEnvironment w.platform (some bs) comp bw
          if !boot.ok && (comp = .msvc || comp = .clangCl) then .ok none
          else .ok (some ⟨bt, coreOnly, tests, examples, comp, bs⟩)
      | _, _ => .ok none

/-- `CMakeBuilder.configure` (lines 1213-1438), reduced to its observable
outcome: on either branch (Conan toolchain or manual) it creates the build
directory, optionally cleans it, assembles the `cmake -S .. -B ..` command
and succeeds exactly when that subprocess exits zero. -/
def cmakeConfigure (cmakeRc : Int) : Bool :=
  cmakeRc = 0

/-- configure.py `main` end to end: resolution, Conan, CMake configure.
Returns the exit code paired with a flag recording whether the build tree
was touched (`install_deps.py` spawned, or `CMakeBuilder.configure` entered,
which unconditionally `mkdir`s the workspace). -/
def configureMain (a : ConfigureArgs) (w : ConfigureWorld) (ps : PromptScript)
    (bw : BootstrapWorld) : Except Unit (Int × Bool) :=
  match resolveConfig a w ps bw with
  | .error e => .error e
  | .ok none => .ok (1, false)
  | .ok (some _) =>
    let conan := setupConan (!a.noInteractive) a.useConanFlag a.noConanFlag
      w.toolchainExists w.installScriptExists w.installDepsRc
      w.toolchainAfterInstall ps.conanUseEvs ps.conanReinstallEvs
      ps.conanInstallEvs
    if !conan.ok then .ok (1, conan.ranInstall)
    else if !cmakeConfigure w.cmakeConfigureRc then .ok (1, true)
    else .ok (0, true)

/-! ## The build.py orchestrator

Configured workspaces live at `build/<build_type>/<platform>/` and are
identified here by their keys.  `find_all_configured_build_dirs` returns
them sorted Debug < Release < RelWithDebInfo; for the selection logic only
the list of build types (what `detect_build_type_from_dir` recovers) is
needed. -/

/-- A path `project_root/build/<bt.lower()>/<platform>` as built by
`get_build_dir` in both scripts. -/
def buildDirPath (root : List String) (bt : BuildType) (p : Platform) : List String :=
  root ++ ["build", buildTypeDirName bt, platformName p]

/-- Outcome of `select_build_dir_interactive` (build.py lines 201-281). -/
inductive SelOutcome
  /-- The Python `None` return: user interrupt/EOF at the top-level prompt. -/
  | cancel
  /-- `(build_dir, False, build_type)`: build an existing configuration. -/
  | build (bt : BuildType)
  /-- `(None, True, None)`: configure a new build. -/
  | configureNew
  /-- `(build_dir, True, build_type)`: reconfigure an existing one. -/
  | reconfigure (bt : BuildType)
  deriving DecidableEq, Repr

/-- The `while True` prompt loop of `select_build_dir_interactive`
(lines 227-279).  The top-level `input()` (line 229) catches
`KeyboardInterrupt`/`EOFError` and returns `None`; the *nested* reconfigure
prompt (line 257) sits in a `try` whose only handler is `ValueError`, so an
interrupt there propagates (`Except.error`).  Invalid numbers re-enter the
loop. -/
def selectLoop (dirs : List BuildType) : List InputEv → Except Unit SelOutcome
  | [] => .ok .cancel
  | .interrupt :: _ => .ok .cancel
  | .text s :: rest =>
    let choice := if strTrim s = "" then "1" else strTrim s
    match strToNat choice with
    | none => selectLoop dirs rest
    | some idx =>
      if h : 1 ≤ idx ∧ idx ≤ dirs.length then
        .ok (.build (dirs.get ⟨idx - 1, by omega⟩))
      else if idx = dirs.length + 1 then .ok .configureNew
      else if idx = dirs.length + 2 then
        match rest with
        | [] => .error ()
        | .interrupt :: _ => .error ()
        | .text t :: rest2 =>
          let rchoice := if strTrim t = "" then "1" else strTrim t
          match strToNat rchoice with
          | none => selectLoop dirs rest2
          | some ridx =>
            if h2 : 1 ≤ ridx ∧ ridx ≤ dirs.length then
              .ok (.reconfigure (dirs.get ⟨ridx - 1, by omega⟩))
            else selectLoop dirs rest2
      else selectLoop dirs rest

/-- `select_build_dir_interactive` (lines 201-281): with no configured
directory it immediately reports "configure new" without prompting. -/
def selectBuildDirInteractive (dirs : List BuildType) (evs : List InputEv) :
    Except Unit SelOutcome :=
  if dirs.isEmpty then .ok .configureNew else selectLoop dirs evs

/-- The command-line arguments of build.py (after `argparse`). -/
structure BuildArgs where
  typeArg : Option BuildType
  compilerArg : Option String
  buildSystemArg : Option String
  platformArg : Option Platform
  coreOnlyArg : Bool
  testsArg : Option Bool
  examplesArg : Option Bool
  useConanArg : Option Bool
  cleanArg : Bool
  noInteractive : Bool
  skipConfigure : Bool
  formatFlag : Bool
  lintFlag : Bool
  deriving Repr

/-- `has_config_args` (build.py lines 743-754).  `--platform` is *not* in
the list. -/
def hasConfigArgs (a : BuildArgs) : Bool :=
  a.typeArg.isSome || a.compilerArg.isSome || a.buildSystemArg.isSome ||
  a.coreOnlyArg || a.testsArg.isSome || a.examplesArg.isSome ||
  a.useConanArg.isSome || a.cleanArg

/-- External observations of one build.py run. -/
structure BuildWorld where
  /-- The project root path. -/
  root : List String
  /-- `get_platform_name()` of the host. -/
  hostPlatform : Platform
  /-- `format.py` exists. -/
  formatScriptExists : Bool
  /-- Return code of the `format.py` subprocess. -/
  formatRc : Int
  /-- `find_all_configured_build_dirs`, as build-type keys, sorted. -/
  configuredDirs : List BuildType
  /-- `find_configured_build_dir`: the most recently configured workspace
  key, if any. -/
  foundConfigured : Option (BuildType × Platform)
  /-- `is_configured(get_build_dir(root, build_type))` for the fallback
  default directory. -/
  defaultDirConfigured : Bool
  /-- Return code of the `configure.py` subprocess, when spawned. -/
  configureRc : Int
  /-- `find_configured_build_dir` re-evaluated after configure.py ran. -/
  foundAfterConfigure : Option (BuildType × Platform)
  /-- Return code of the `cmake --build` subprocess. -/
  buildRc : Int
  /-- `lint.py` exists. -/
  lintScriptExists : Bool
  /-- Return code of the `lint.py` subprocess; inspected only to print a
  warning (lines 846-850). -/
  lintRc : Int
  /-- Console input for the build-directory selection. -/
  selEvs : List InputEv
  deriving Repr

/-- Result of one build.py run: exit code, and whether the
`cmake --build` subprocess was spawned. -/
structure MainOut where
  exit : Int
  ranBuild : Bool
  deriving DecidableEq, Repr

/-- build.py `main` from line 792 on: obtain a configured build directory
(running `run_configure`, i.e. the configure.py subprocess, when needed),
then `build_project`, then the optional lint step whose return code is only
warned about.  `dir0`/`needsCfg`/`typeSet` carry the state produced by the
selection phase; `buildTypeVar` is the `build_type` local (its final value
only feeds `--config` on the build command).  Every directory reaching
`build_project` was just observed configured, so its `is_configured`
re-check succeeds in this sequential model. -/
def buildPhase (a : BuildArgs) (w : BuildWorld) (dir0 : Option BuildType)
    (needsCfg : Bool) (buildTypeVar : BuildType) : MainOut :=
  -- `step` is the configured directory handed to `build_project`; every
  -- failure path of lines 792-831 prints an error and returns exit code 1
  -- (`none` below).
  let step : Option BuildType :=
    if !a.skipConfigure && needsCfg then
      -- lines 793-805: run_configure succeeds iff the subprocess exits 0
      if w.configureRc = 0 then
        match w.foundAfterConfigure with
        | some (bt, _) => some bt
        | none => none
      else none
    else
      match dir0 with
      | some bt => some bt
      | none =>
        -- lines 806-831
        match w.foundConfigured with
        | some (bt, _) => some bt
        | none =>
          if w.defaultDirConfigured then some buildTypeVar
          else if a.skipConfigure then none
          else if w.configureRc = 0 then
            match w.foundAfterConfigure with
            | some (bt, _) => some bt
            | none => none
          else none
  match step with
  | none => ⟨1, false⟩
  | some _ =>
    -- lines 838-861: build_project, then lint (return code ignored)
    if w.buildRc = 0 then ⟨0, true⟩ else ⟨1, true⟩

/-- build.py `main` (lines 716-861): optional format step, the interactive
workspace selection or the non-interactive `needs_configure` decision, then
`buildPhase`. -/
def buildMain (a : BuildArgs) (w : BuildWorld) : Except Unit MainOut :=
  if a.formatFlag && w.formatScriptExists && !(w.formatRc = 0) then .ok ⟨1, false⟩
  else if !hasConfigArgs a && !a.skipConfigure && !a.noInteractive then
    match selectBuildDirInteractive w.configuredDirs w.selEvs with
    | .error e => .error e
    | .ok .cancel => .ok ⟨0, false⟩
    | .ok (.build bt) => .ok (buildPhase a w (some bt) false bt)
    | .ok .configureNew =>
      .ok (buildPhase a w none true (a.typeArg.getD .release))
    | .ok (.reconfigure bt) => .ok (buildPhase a w (some bt) true bt)
  else
    -- lines 770-790
    let needsCfg0 :=
      if a.cleanArg then true
      else
        match w.foundConfigured, a.typeArg with
        | none, _ => true
        | some (fbt, fp), some t =>
          buildDirPath w.root fbt fp != buildDirPath w.root t w.hostPlatform
        | some _, none => false
    let needsCfg := needsCfg0 || hasConfigArgs a
    let dir0 := if !needsCfg then w.foundConfigured.map Prod.fst else none
    .ok (buildPhase a w dir0 needsCfg (a.typeArg.getD .release))

/-- The run was explicitly cancelled at the workspace-selection prompt: the
format step passed, build.py took the interactive-selection path, and the
selector returned the Python `None`. -/
def cancelSel (a : BuildArgs) (w : BuildWorld) : Prop :=
  (a.formatFlag && w.formatScriptExists && !(w.formatRc = 0)) = false ∧
  hasConfigArgs a = false ∧ a.skipConfigure = false ∧ a.noInteractive = false ∧
  selectBuildDirInteractive w.configuredDirs w.selEvs = .ok .cancel

instance instDecEqExcept {ε α : Type} [DecidableEq ε] [DecidableEq α] :
    DecidableEq (Except ε α) := fun x y =>
  match x, y with
  | .error e, .error e' =>
    if h : e = e' then .isTrue (by rw [h])
    else .isFalse (by intro hh; cases hh; exact h rfl)
  | .ok u, .ok v =>
    if h : u = v then .isTrue (by rw [h])
    else .isFalse (by intro hh; cases hh; exact h rfl)
  | .error _, .ok _ => .isFalse (by intro hh; cases hh)
  | .ok _, .error _ => .isFalse (by intro hh; cases hh)

instance (a : BuildArgs) (w : BuildWorld) : Decidable (cancelSel a w) := by
  unfold cancelSel
  infer_instance

/-! # Theorems -/

/-! ## C8: the `key=value` environment merge -/

theorem envGet_envSet_self (e : Env) (k v : String) :
    envGet (envSet e k v) k = some v := by
  induction e with
  | nil => simp [envSet, envGet]
  | cons hd tl ih =>
    obtain ⟨k', v'⟩ := hd
    by_cases h : k' = k
    · simp [envSet, envGet, h]
    · simp [envSet, envGet, h, ih]

theorem envGet_envSet_ne (e : Env) (k k' v : String) (h : k' ≠ k) :
    envGet (envSet e k' v) k = envGet e k := by
  induction e with
  | nil => simp [envSet, envGet, h]
  | cons hd tl ih =>
    obtain ⟨k2, v2⟩ := hd
    by_cases h2 : k2 = k'
    · subst h2
      simp [envSet, envGet, h]
    · by_cases h3 : k2 = k
      · subst h3
        simp [envSet, envGet, h2]
      · simp [envSet, envGet, h2, h3, ih]

/-- C8.  The vendor environment script's captured output is merged
additively: a variable named by some `key=value` line of the output ends up
bound to the value of the last such line, and a variable named by no
`key=value` line keeps exactly its prior binding.  (`mergeEnvLines` is the
merge loop of `CompilerDetector.setup_msvc_environment`, configure.py
lines 529-534, identical to build.py lines 479-482.) -/
theorem c8_env_merge (e : Env) (lines : List String) (k : String) :
    envGet (mergeEnvLines e lines) k =
      match lastEnvValue k lines with
      | some v => some v
      | none => envGet e k := by
  induction lines generalizing e with
  | nil => rfl
  | cons l rest ih =>
    have hstep : mergeEnvLines e (l :: rest) =
        mergeEnvLines
          (match parseEnvLine l with
           | none => e
           | some (k', v) => envSet e k' v) rest := rfl
    rw [hstep, ih]
    cases hrest : lastEnvValue k rest with
    | some v => simp [lastEnvValue, hrest]
    | none =>
      simp only [lastEnvValue, hrest]
      cases hp : parseEnvLine l with
      | none => simp
      | some kv =>
        obtain ⟨k', v⟩ := kv
        by_cases hk : k' = k
        · subst hk
          simp [envGet_envSet_self]
        · simp [hk, envGet_envSet_ne _ _ _ _ hk]

/-! ## C9: the workspace directory is keyed by exactly (build type, platform) -/

theorem buildTypeDirName_injective :
    ∀ x y : BuildType, buildTypeDirName x = buildTypeDirName y → x = y := by
  intro x y h
  cases x <;> cases y <;> first | rfl | (exfalso; revert h; decide)

theorem platformName_injective :
    ∀ x y : Platform, platformName x = platformName y → x = y := by
  intro x y h
  cases x <;> cases y <;> first | rfl | (exfalso; revert h; decide)

/-- C9.  `get_build_dir` is a function of exactly the pair
(build type, platform): configurations agreeing on those two fields get the
same directory whatever their module/test/example/Conan fields, and
configurations differing in either field always get distinct directories. -/
theorem c9_workspace_key (root : List String) (c₁ c₂ : ResolvedConfig) :
    (c₁.buildType = c₂.buildType → c₁.platform = c₂.platform →
      getBuildDir root c₁ = getBuildDir root c₂) ∧
    (c₁.buildType ≠ c₂.buildType ∨ c₁.platform ≠ c₂.platform →
      getBuildDir root c₁ ≠ getBuildDir root c₂) := by
  constructor
  · intro h1 h2
    unfold getBuildDir
    rw [h1, h2]
  · intro h hEq
    unfold getBuildDir at hEq
    have htail := List.append_cancel_left hEq
    have h1 : buildTypeDirName c₁.buildType = buildTypeDirName c₂.buildType := by
      injection htail with _ htail'
      injection htail' with hbt _
    have h2 : platformName c₁.platform = platformName c₂.platform := by
      injection htail with _ htail'
      injection htail' with _ htail''
      injection htail'' with hpl _
    rcases h with h | h
    · exact h (buildTypeDirName_injective _ _ h1)
    · exact h (platformName_injective _ _ h2)

/-- Witness for C9 at concrete configurations: same key but different
module/test/example/Conan flags share the directory; a different build type
gives a different one. -/
theorem c9_witness :
    getBuildDir [] ⟨.release, .linux, true, true, false, true⟩ =
      getBuildDir [] ⟨.release, .linux, false, false, true, false⟩ ∧
    getBuildDir [] ⟨.release, .linux, true, true, false, true⟩ ≠
      getBuildDir [] ⟨.debug, .linux, true, true, false, true⟩ :=
  ⟨(c9_workspace_key [] ⟨.release, .linux, true, true, false, true⟩
      ⟨.release, .linux, false, false, true, false⟩).1 rfl rfl,
   (c9_workspace_key [] ⟨.release, .linux, true, true, false, true⟩
      ⟨.debug, .linux, true, true, false, true⟩).2 (Or.inl (by decide))⟩

/-! ## C10: a recognised cached compiler wins over fresh detection -/

/-- C10.  In `setup_compiler`, when no explicit compiler was supplied and
the cached `CMAKE_CXX_COMPILER` is recognisable, the cached compiler is
adopted with no host probe at all (so a cached compiler that has since
disappeared from the host is still selected); conversely any probing run
implies the cached value was absent or unrecognised. -/
theorem c10_cache_wins (q : CompilerQuery) (hne : q.explicitCompiler = none) :
    (∀ s comp, q.cacheCxx = some s → classifyCachedCompiler s = some comp →
      setupCompiler q = .ok ⟨true, some comp, false⟩) ∧
    (∀ res, setupCompiler q = .ok res → res.probed = true →
      ∀ s, q.cacheCxx = some s → classifyCachedCompiler s = none) := by
  constructor
  · intro s comp hs hc
    simp [setupCompiler, hne, hs, hc]
  · intro res hres hprobe s hs
    cases hcl : classifyCachedCompiler s with
    | none => rfl
    | some comp =>
      simp [setupCompiler, hne, hs, hcl] at hres
      rw [← hres] at hprobe
      simp at hprobe

/-- Witness for C10: the cache names g++, the host has no compiler at all,
and the resolver still adopts gcc without probing. -/
theorem c10_witness :
    setupCompiler ⟨.linux, false, none, some "/usr/bin/g++",
      ⟨false, false, false, false, none, false, false, false⟩, .text ""⟩ =
      .ok ⟨true, some .gcc, false⟩ :=
  (c10_cache_wins ⟨.linux, false, none, some "/usr/bin/g++",
      ⟨false, false, false, false, none, false, false, false⟩, .text ""⟩ rfl).1
    "/usr/bin/g++" .gcc rfl (by decide)

/-! ## C3: interrupt handling at the interactive prompts -/

/-- C3 counterexample.  The claim says *every* interactive prompt of the
resolver and selector catches `KeyboardInterrupt`/EOF.  The compiler choice
prompt of `select_compiler_interactive` (configure.py line 642) is a bare
`input()`: on a host offering both MSVC and clang-cl, an interrupt there
propagates out of the function (modelled by `Except.error`), it is not
converted into a cancel outcome. -/
theorem c3_counterexample :
    selectCompilerInteractive .windows
      ⟨false, true, true, true, some "2022", true, false, true⟩ .interrupt =
      .error () := rfl

/-- C3 amended: only the `ask_yes_no` prompts and the *top-level* workspace
selection prompt catch interrupts (yielding the clean "no"/cancel outcome);
the bare prompts — build type, module selection, compiler and build-system
choice, and the nested reconfigure prompt of the selector — let the
interrupt propagate. -/
theorem c3_amended :
    (∀ (d : Bool) (evs : List InputEv), askYesNo d (.interrupt :: evs) = false) ∧
    (∀ (bt : BuildType) (dirs : List BuildType) (evs : List InputEv),
      selectBuildDirInteractive (bt :: dirs) (.interrupt :: evs) = .ok .cancel) ∧
    (∀ (bt : BuildType) (evs : List InputEv),
      selectBuildDirInteractive [bt] (.text "3" :: .interrupt :: evs) = .error ()) ∧
    selectBuildTypeInteractive .interrupt = .error () ∧
    selectModulesInteractive .interrupt = .error () ∧
    selectBuildSystemInteractive .linux
      ⟨true, true, false, false, none, true, true, false⟩ .interrupt = .error () := by
  exact ⟨fun _ _ => rfl, fun _ _ _ => rfl, fun bt evs => rfl, rfl, rfl, rfl⟩

/-! ## C7: bootstrap idempotence -/

/-- The verification the configure.py bootstrap performs after the merge
(lines 540-563): `mt`/`mt.exe` resolvable for clang-cl, `cl` for MSVC. -/
def requiredToolOk (comp : Compiler) (tools : List String) : Bool :=
  match comp with
  | .clangCl => tools.contains "mt" || tools.contains "mt.exe"
  | _ => tools.contains "cl"

/-- C7 counterexample.  The claim covers both bootstrap implementations,
but build.py's `setup_msvc_environment` merges the captured variables into
a *local copy* of the environment and never writes `os.environ`: after a
first call that successfully ran `vcvarsall` (its returned dictionary does
carry the imported `INCLUDE`), the process environment the second call
inspects is unchanged and ineligible for the fast path, so the second call
spawns the `vcvars` subprocess again instead of being a no-op. -/
theorem c7_counterexample :
    (bpSetupTwice ⟨true, [], false, true, true, true,
        ["PATH=C:/VS/bin", "INCLUDE=C:/VS/include"], [("PATH", "C:/base")]⟩).1.2 = true ∧
    envGet (bpSetupTwice ⟨true, [], false, true, true, true,
        ["PATH=C:/VS/bin", "INCLUDE=C:/VS/include"], [("PATH", "C:/base")]⟩).1.1
      "INCLUDE" = some "C:/VS/include" ∧
    (bpSetupTwice ⟨true, [], false, true, true, true,
        ["PATH=C:/VS/bin", "INCLUDE=C:/VS/include"], [("PATH", "C:/base")]⟩).2.2 = true :=
  ⟨rfl, rfl, rfl⟩

/-- C7 amended: configure.py's bootstrap
(`CompilerDetector.setup_msvc_environment`) is idempotent as claimed — it
merges into `os.environ` and verifies the required tool, so after a first
successful call under a bootstrap-requiring configuration (Windows, Ninja,
MSVC or clang-cl) the tool is resolvable and a second call fast-paths with
no subprocess; build.py's `setup_msvc_environment`, however, leaves the
process environment untouched, so whenever its fast-path precondition fails
and a Visual Studio installation is found it spawns the `vcvars` subprocess
— on every call, a second one included. -/
theorem c7_amended (bs : String) (comp : Compiler) (w w' : BootstrapWorld)
    (v : BpWorld)
    (hbs : strHas "Ninja" bs = true)
    (hcomp : comp = .msvc ∨ comp = .clangCl)
    (hok : (setupMsvcEnvironment .windows (some bs) comp w).ok = true)
    (htools : w'.tools = (setupMsvcEnvironment .windows (some bs) comp w).tools)
    (hv1 : v.isWindows = true)
    (hv2 : (v.procTools.contains "cl" && v.includeVarSet) = false)
    (hv3 : v.vsPathFound = true) (hv4 : v.vcvarsExists = true) :
    requiredToolOk comp (setupMsvcEnvironment .windows (some bs) comp w).tools = true ∧
    setupMsvcEnvironment .windows (some bs) comp w' = ⟨true, w'.tools, false⟩ ∧
    (bpSetupMsvcEnvironment v).2 = true := by
  have hns : setupMsvcEnvironment.bsSkips (some bs) = false := by
    simp [setupMsvcEnvironment.bsSkips, hbs]
  have hreq : requiredToolOk comp
      (setupMsvcEnvironment .windows (some bs) comp w).tools = true := by
    rcases hcomp with hc | hc <;> subst hc
    · by_cases hcl : "cl" ∈ w.tools
      · simp [setupMsvcEnvironment, hns, hcl, requiredToolOk]
      · by_cases hsf : w.scriptFound
        · by_cases hro : w.scriptRunOk
          · by_cases hafter : "cl" ∈ w.toolsAfterScript
            · simp [setupMsvcEnvironment, hns, requiredToolOk, hcl, hsf, hro, hafter]
            · simp [setupMsvcEnvironment, hns, hcl, hsf, hro, hafter] at hok
          · simp [setupMsvcEnvironment, hns, hcl, hsf, hro] at hok
        · simp [setupMsvcEnvironment, hns, hcl, hsf] at hok
    · by_cases hmt : "mt" ∈ w.tools
      · simp [setupMsvcEnvironment, hns, hmt, requiredToolOk]
      · by_cases hmt2 : "mt.exe" ∈ w.tools
        · simp [setupMsvcEnvironment, hns, hmt, hmt2, requiredToolOk]
        · by_cases hsf : w.scriptFound
          · by_cases hro : w.scriptRunOk
            · by_cases hafter : "mt" ∈ w.toolsAfterScript
              · simp [setupMsvcEnvironment, hns, requiredToolOk, hmt, hmt2, hsf, hro, hafter]
              · by_cases hafter2 : "mt.exe" ∈ w.toolsAfterScript
                · simp [setupMsvcEnvironment, hns, requiredToolOk, hmt, hmt2, hsf, hro,
                    hafter, hafter2]
                · simp [setupMsvcEnvironment, hns, hmt, hmt2, hsf, hro,
                    hafter, hafter2] at hok
            · simp [setupMsvcEnvironment, hns, hmt, hmt2, hsf, hro] at hok
          · simp [setupMsvcEnvironment, hns, hmt, hmt2, hsf] at hok
  have h1 : requiredToolOk comp w'.tools = true := by rw [htools]; exact hreq
  refine ⟨hreq, ?_, ?_⟩
  · rcases hcomp with hc | hc <;> subst hc
    · simp only [requiredToolOk] at h1
      simp at h1
      simp [setupMsvcEnvironment, hns, h1]
    · simp only [requiredToolOk] at h1
      simp at h1
      rcases h1 with h1 | h1 <;> simp [setupMsvcEnvironment, hns, h1]
  · have hv2' : ¬("cl" ∈ v.procTools ∧ v.includeVarSet = true) := by
      rintro ⟨hm, hi⟩
      simp [hi] at hv2
      exact hv2 hm
    by_cases hro : v.vcvarsRunOk <;>
      simp [bpSetupMsvcEnvironment, hv1, hv2', hv3, hv4, hro]

/-- Witness for C7 at a concrete world: a first configure.py bootstrap that
runs the script and ends with `cl` resolvable, a second call that fast-paths,
and a build.py world whose (unchanged) process environment forces the
subprocess again. -/
theorem c7_witness :
    requiredToolOk .msvc
      (setupMsvcEnvironment .windows (some "Ninja") .msvc
        ⟨[], true, true, ["cl"]⟩).tools = true ∧
    setupMsvcEnvironment .windows (some "Ninja") .msvc
      ⟨["cl"], true, true, ["cl"]⟩ = ⟨true, ["cl"], false⟩ ∧
    (bpSetupMsvcEnvironment ⟨true, [], false, true, true, true, [], []⟩).2 = true :=
  c7_amended "Ninja" .msvc ⟨[], true, true, ["cl"]⟩ ⟨["cl"], true, true, ["cl"]⟩
    ⟨true, [], false, true, true, true, [], []⟩ (by decide) (Or.inl rfl) (by decide)
    rfl rfl rfl rfl rfl

/-! ## C5: non-interactive defaults (Scenario A) -/

/-- Modelled from the spec's words ("Scenario A", section 8): the platform's
highest-priority available compiler — on Windows MSVC before Clang (with the
clang-cl variant preferred), elsewhere GCC before Clang. -/
def highestPriorityCompiler (p : Platform) (h : Host) : Option Compiler :=
  match p with
  | .windows =>
    if h.hasMsvc then some .msvc
    else if h.hasClangCl then some .clangCl
    else if h.hasClang then some .clang
    else none
  | _ =>
    if h.hasGcc then some .gcc
    else if h.hasClang then some .clang
    else none

/-- Modelled from the spec's words ("Scenario A", section 8): the
highest-priority available build backend — Ninja first, then MSBuild on
Windows or Make elsewhere. -/
def highestPriorityBackend (p : Platform) (h : Host) : Option String :=
  match p with
  | .windows =>
    if h.hasNinja then some "Ninja" else detectMsbuild .windows h
  | _ =>
    if h.hasNinja then some "Ninja"
    else if h.hasMake then some "Unix Makefiles"
    else none

/-- With no explicit compiler, no cached compiler and no interactivity,
`setup_compiler` auto-detects exactly the priority-ordered choice. -/
theorem setupCompiler_auto (q : CompilerQuery) (h1 : q.explicitCompiler = none)
    (h2 : q.cacheCxx = none) (h3 : q.interactive = false) :
    setupCompiler q =
      .ok (match highestPriorityCompiler q.platform q.host with
           | some c => ⟨true, some c, true⟩
           | none => ⟨false, none, true⟩) := by
  obtain ⟨p, inter, ec, cx, host, ev⟩ := q
  simp only at h1 h2 h3
  subst h1 h2 h3
  obtain ⟨gcc, clang, clangcl, msvc, vsv, ninja, make, msb⟩ := host
  cases p <;> cases gcc <;> cases clang <;> cases clangcl <;> cases msvc <;>
    simp [setupCompiler, setupCompiler.setupCompilerDetect, detectClang,
      highestPriorityCompiler]

/-- With no explicit build system and no interactivity, `setup_build_system`
auto-detects exactly the priority-ordered choice. -/
theorem setupBuildSystem_auto (q : BuildSysQuery) (h1 : q.explicitBS = none)
    (h3 : q.interactive = false) :
    setupBuildSystem q = .ok (highestPriorityBackend q.platform q.host) := by
  obtain ⟨p, inter, eb, host, ev⟩ := q
  simp only at h1 h3
  subst h1 h3
  cases p <;> cases hn : host.hasNinja <;>
    simp [setupBuildSystem, highestPriorityBackend, hn]
  · cases hd : detectMsbuild .windows host <;> simp
  · cases hm : host.hasMake <;> simp [hm]
  · cases hm : host.hasMake <;> simp [hm]

/-- C5.  Non-interactive mode, no explicit arguments, no cached
configuration: every successfully resolved configuration has build type
Release, the platform's highest-priority available compiler, and the
highest-priority available build backend. -/
theorem c5_scenario_a (a : ConfigureArgs) (w : ConfigureWorld) (ps : PromptScript)
    (bw : BootstrapWorld) (r : ResolvedCore)
    (hni : a.noInteractive = true)
    (ht : a.explicitType = none) (hc : a.explicitCompiler = none)
    (hb : a.explicitBS = none) (hcache : w.cacheCxx = none)
    (hres : resolveConfig a w ps bw = .ok (some r)) :
    r.buildType = .release ∧
    some r.compiler = highestPriorityCompiler w.platform w.host ∧
    some r.buildSystem = highestPriorityBackend w.platform w.host := by
  by_cases hcm : w.cmakeOnPath
  · rw [resolveConfig] at hres
    rw [setupCompiler_auto ⟨w.platform, false, a.explicitCompiler, w.cacheCxx,
        w.host, ps.compilerSetupEv⟩ hc hcache rfl] at hres
    rw [setupBuildSystem_auto ⟨w.platform, false, a.explicitBS, w.host,
        ps.buildSysSetupEv⟩ hb rfl] at hres
    simp only [hcm, hni, ht] at hres
    cases hpc : highestPriorityCompiler w.platform w.host with
    | none => simp [hpc] at hres
    | some comp =>
      cases hpb : highestPriorityBackend w.platform w.host with
      | none => simp [hpc, hpb] at hres
      | some bsys =>
        simp only [hpc, hpb] at hres
        split at hres
        · cases hres
        · split at hres
          · cases hres
          · injection hres with hres'
            injection hres' with hres''
            rw [← hres'']
            exact ⟨rfl, rfl, rfl⟩
  · rw [resolveConfig] at hres
    simp [hcm] at hres

/-- Witness for C5: a Linux host with everything available resolves to
Release, GCC (before Clang) and Ninja (before Make). -/
theorem c5_witness :
    (⟨.release, false, false, false, .gcc, "Ninja"⟩ : ResolvedCore).buildType = .release ∧
    some (⟨.release, false, false, false, .gcc, "Ninja"⟩ : ResolvedCore).compiler =
      highestPriorityCompiler .linux ⟨true, true, false, false, none, true, true, false⟩ ∧
    some (⟨.release, false, false, false, .gcc, "Ninja"⟩ : ResolvedCore).buildSystem =
      highestPriorityBackend .linux ⟨true, true, false, false, none, true, true, false⟩ :=
  c5_scenario_a ⟨none, none, none, false, none, none, false, false, false, true⟩
    ⟨.linux, ⟨true, true, false, false, none, true, true, false⟩, true, none, false,
      true, 0, false, 0⟩
    ⟨.text "", [], [], .text "", .text "", .text "", .text "", .text "", [], [], []⟩
    ⟨[], false, false, []⟩ ⟨.release, false, false, false, .gcc, "Ninja"⟩
    rfl rfl rfl rfl rfl (by rfl)

/-! ## C2: explicit command-line values take precedence -/

/-- Inversion of the resolution phase: however a run resolved, an
explicitly supplied build type, core-only flag, tests flag or examples flag
appears verbatim in the result. -/
theorem resolveConfig_fields (a : ConfigureArgs) (w : ConfigureWorld)
    (ps : PromptScript) (bw : BootstrapWorld) (r : ResolvedCore)
    (h : resolveConfig a w ps bw = .ok (some r)) :
    (∀ t, a.explicitType = some t → r.buildType = t) ∧
    (a.coreOnlyFlag = true → r.coreOnly = true) ∧
    (∀ b, a.testsFlag = some b → r.buildTests = b) ∧
    (∀ b, a.examplesFlag = some b → r.buildExamples = b) := by
  rw [resolveConfig] at h
  simp only [] at h
  repeat' split at h
  any_goals cases h
  all_goals
    refine ⟨fun t ht => ?_, fun hco => ?_, fun b hb => ?_, fun b hb => ?_⟩ <;>
      simp_all [selectTestsExamplesInteractive]

/-- C2, amended.  If an explicit command-line value is supplied for a field,
its resolution consults neither the cached `CMakeCache.txt` nor any
interactive input: build type, core-only, tests and examples are adopted
verbatim; the compiler and the build system resolve to a function of the
supplied value and the host probes alone (the supplied name may be
*normalised* — which is what the original claim missed). -/
theorem c2_amended :
    (∀ a w ps bw t r, a.explicitType = some t →
      resolveConfig a w ps bw = .ok (some r) → r.buildType = t) ∧
    (∀ a w ps bw r, a.coreOnlyFlag = true →
      resolveConfig a w ps bw = .ok (some r) → r.coreOnly = true) ∧
    (∀ a w ps bw b r, a.testsFlag = some b →
      resolveConfig a w ps bw = .ok (some r) → r.buildTests = b) ∧
    (∀ a w ps bw b r, a.examplesFlag = some b →
      resolveConfig a w ps bw = .ok (some r) → r.buildExamples = b) ∧
    (∀ q q' : CompilerQuery, q.explicitCompiler.isSome = true →
      q.explicitCompiler = q'.explicitCompiler → q.platform = q'.platform →
      q.host = q'.host → setupCompiler q = setupCompiler q') ∧
    (∀ q q' : BuildSysQuery, q.explicitBS.isSome = true →
      q.explicitBS = q'.explicitBS → q.platform = q'.platform →
      q.host = q'.host → setupBuildSystem q = setupBuildSystem q') := by
  refine ⟨?_, ?_, ?_, ?_, ?_, ?_⟩
  · intro a w ps bw t r ht h
    exact (resolveConfig_fields a w ps bw r h).1 t ht
  · intro a w ps bw r hc h
    exact (resolveConfig_fields a w ps bw r h).2.1 hc
  · intro a w ps bw b r hb h
    exact (resolveConfig_fields a w ps bw r h).2.2.1 b hb
  · intro a w ps bw b r hb h
    exact (resolveConfig_fields a w ps bw r h).2.2.2 b hb
  · intro q q' hs he hp hh
    cases hq : q.explicitCompiler with
    | none => rw [hq] at hs; cases hs
    | some c =>
      rw [hq] at he
      simp only [setupCompiler, hq, ← he, hp, hh]
  · intro q q' hs he hp hh
    cases hq : q.explicitBS with
    | none => rw [hq] at hs; cases hs
    | some bsv =>
      rw [hq] at he
      simp only [setupBuildSystem, hq, ← he, hp, hh]

/-- C2 counterexample.  On a Windows host exposing clang-cl but not regular
clang, an explicitly supplied `--compiler clang` does *not* resolve to
`clang`: `setup_compiler` substitutes `clang-cl` (configure.py
lines 736-744), so the resolved field differs from the supplied value. -/
theorem c2_counterexample :
    resolveConfig ⟨none, some "clang", none, false, none, none, false, false, false, true⟩
      ⟨.windows, ⟨false, false, true, false, none, true, false, false⟩, true, none,
        false, true, 0, false, 0⟩
      ⟨.text "", [], [], .text "", .text "", .text "", .text "", .text "", [], [], []⟩
      ⟨["mt"], false, false, []⟩ =
      .ok (some ⟨.release, false, false, false, .clangCl, "Ninja"⟩) ∧
    compilerName .clangCl ≠ "clang" :=
  ⟨rfl, by decide⟩

/-- Witness for C2: an explicit Debug build type survives resolution
verbatim, and with an explicit compiler the cache entry and the prompt
script are irrelevant to `setup_compiler`'s result. -/
theorem c2_witness :
    (⟨.debug, false, false, false, .gcc, "Ninja"⟩ : ResolvedCore).buildType = .debug ∧
    setupCompiler ⟨.linux, true, some "gcc", some "/usr/bin/clang++",
        ⟨true, true, false, false, none, true, true, false⟩, .text "2"⟩ =
      setupCompiler ⟨.linux, false, some "gcc", none,
        ⟨true, true, false, false, none, true, true, false⟩, .text "9"⟩ :=
  ⟨c2_amended.1 ⟨some .debug, none, none, false, none, none, false, false, false, true⟩
      ⟨.linux, ⟨true, true, false, false, none, true, true, false⟩, true, none, false,
        true, 0, false, 0⟩
      ⟨.text "", [], [], .text "", .text "", .text "", .text "", .text "", [], [], []⟩
      ⟨[], false, false, []⟩ .debug ⟨.debug, false, false, false, .gcc, "Ninja"⟩
      rfl (by rfl),
   c2_amended.2.2.2.2.1
     ⟨.linux, true, some "gcc", some "/usr/bin/clang++",
       ⟨true, true, false, false, none, true, true, false⟩, .text "2"⟩
     ⟨.linux, false, some "gcc", none,
       ⟨true, true, false, false, none, true, true, false⟩, .text "9"⟩
     rfl rfl rfl rfl⟩

/-! ## C6: validation failure of an explicit compiler mutates nothing -/

theorem setupCompilerDetect_noninteractive (q : CompilerQuery)
    (h : q.interactive = false) (e : Unit) :
    setupCompiler.setupCompilerDetect q ≠ .error e := by
  intro hx
  rw [setupCompiler.setupCompilerDetect] at hx
  simp only [h, Bool.false_eq_true, if_false] at hx
  repeat' split at hx
  all_goals cases hx

theorem setupCompiler_noninteractive_total (q : CompilerQuery)
    (h : q.interactive = false) (e : Unit) : setupCompiler q ≠ .error e := by
  intro hx
  rw [setupCompiler] at hx
  repeat' split at hx
  any_goals cases hx
  all_goals exact setupCompilerDetect_noninteractive q h e hx

theorem setupBuildSystem_noninteractive_total (q : BuildSysQuery)
    (h : q.interactive = false) (e : Unit) : setupBuildSystem q ≠ .error e := by
  intro hx
  cases heb : q.explicitBS with
  | some bs =>
    rw [setupBuildSystem] at hx
    rw [heb] at hx
    simp only [] at hx
    repeat' split at hx
    all_goals cases hx
  | none =>
    rw [setupBuildSystem_auto q heb h] at hx
    cases hx

/-- Under an explicit but host-unavailable compiler, the resolution phase
either reports failure or propagates a prompt interrupt — never a resolved
configuration. -/
theorem resolveConfig_explicit_fail (a : ConfigureArgs) (w : ConfigureWorld)
    (ps : PromptScript) (bw : BootstrapWorld) (c : String)
    (hc : a.explicitCompiler = some c)
    (hval : setupExplicitCompiler w.platform c w.host = none) :
    resolveConfig a w ps bw = .ok none ∨ resolveConfig a w ps bw = .error () := by
  have hsc : ∀ (inter : Bool) (ev : InputEv),
      setupCompiler ⟨w.platform, inter, some c, w.cacheCxx, w.host, ev⟩ =
        .ok ⟨false, none, true⟩ := by
    intro inter ev
    simp [setupCompiler, hval]
  rw [resolveConfig]
  simp only [hc]
  repeat' split
  all_goals try simp_all
  all_goals
    subst_vars
    simp_all

/-- In non-interactive mode no prompt exists, so the resolution phase never
propagates an interrupt. -/
theorem resolveConfig_noninteractive_total (a : ConfigureArgs) (w : ConfigureWorld)
    (ps : PromptScript) (bw : BootstrapWorld) (hni : a.noInteractive = true)
    (e : Unit) : resolveConfig a w ps bw ≠ .error e := by
  intro h
  rw [resolveConfig] at h
  by_cases hcm : (!w.cmakeOnPath) = true
  · rw [if_pos hcm] at h
    cases h
  · rw [if_neg hcm, if_neg (by simp [hni])] at h
    simp only [] at h
    repeat' split at h
    any_goals cases h
    all_goals
      first
        | exact setupCompiler_noninteractive_total _ rfl _ (by assumption)
        | exact setupBuildSystem_noninteractive_total _ rfl _ (by assumption)

/-- C6.  If the explicitly supplied compiler fails validation (detection
reports it unavailable), every terminating configure.py run exits 1 with the
build tree untouched — no workspace directory is created and no mutation has
happened; in non-interactive mode the run always terminates that way. -/
theorem c6_validation_failure (a : ConfigureArgs) (w : ConfigureWorld)
    (ps : PromptScript) (bw : BootstrapWorld) (c : String)
    (hc : a.explicitCompiler = some c)
    (hval : setupExplicitCompiler w.platform c w.host = none) :
    (∀ r fs, configureMain a w ps bw = .ok (r, fs) → r = 1 ∧ fs = false) ∧
    (a.noInteractive = true → configureMain a w ps bw = .ok (1, false)) := by
  rcases resolveConfig_explicit_fail a w ps bw c hc hval with hres | hres
  · constructor
    · intro r fs h
      rw [configureMain, hres] at h
      cases h
      exact ⟨rfl, rfl⟩
    · intro _
      rw [configureMain, hres]
  · constructor
    · intro r fs h
      rw [configureMain, hres] at h
      cases h
    · intro hni
      exact absurd hres (resolveConfig_noninteractive_total a w ps bw hni ())

/-- Witness for C6: `--compiler gcc --no-interactive` on a host without GCC
exits 1 having touched nothing. -/
theorem c6_witness :
    configureMain ⟨none, some "gcc", none, false, none, none, false, false, false, true⟩
      ⟨.linux, ⟨false, true, false, false, none, true, true, false⟩, true, none,
        false, true, 0, false, 0⟩
      ⟨.text "", [], [], .text "", .text "", .text "", .text "", .text "", [], [], []⟩
      ⟨[], false, false, []⟩ = .ok (1, false) :=
  (c6_validation_failure ⟨none, some "gcc", none, false, none, none, false, false, false, true⟩
      ⟨.linux, ⟨false, true, false, false, none, true, true, false⟩, true, none,
        false, true, 0, false, 0⟩
      ⟨.text "", [], [], .text "", .text "", .text "", .text "", .text "", [], [], []⟩
      ⟨[], false, false, []⟩ "gcc" rfl (by rfl)).2 rfl

/-! ## C4: the orchestrator's exit code -/

theorem buildPhase_spec (a : BuildArgs) (w : BuildWorld) (d : Option BuildType)
    (n : Bool) (v : BuildType) :
    ((buildPhase a w d n v).exit = 0 ↔
      (buildPhase a w d n v).ranBuild = true ∧ w.buildRc = 0) ∧
    ((buildPhase a w d n v).exit = 0 ∨ (buildPhase a w d n v).exit = 1) ∧
    ((buildPhase a w d n v).ranBuild = true → w.buildRc ≠ 0 →
      (buildPhase a w d n v).exit = 1) := by
  rw [buildPhase.eq_def]
  simp only []
  split
  · simp
  · split <;> simp_all

/-- Exit-code characterisation of the phase following workspace selection,
given that the run was not cancelled. -/
theorem c4_from_phase (a : BuildArgs) (w : BuildWorld) (d : Option BuildType)
    (n : Bool) (v : BuildType) (o : MainOut) (ho : o = buildPhase a w d n v)
    (hnc : ¬ cancelSel a w) :
    (o.exit = 0 ↔ ((o.ranBuild = true ∧ w.buildRc = 0) ∨ cancelSel a w)) ∧
    (o.exit = 0 ∨ o.exit = 1) := by
  subst ho
  obtain ⟨h1, h2, _⟩ := buildPhase_spec a w d n v
  refine ⟨?_, h2⟩
  rw [h1]
  constructor
  · exact Or.inl
  · rintro (hh | hh)
    · exact hh
    · exact absurd hh hnc

/-- C4.  The build orchestrator exits 0 exactly when the cmake build
subprocess ran and succeeded or the user cancelled at the workspace
selection prompt; every detection/validation/subprocess failure exits 1;
and the lint step's return code never influences the result. -/
theorem c4_exit_code (a : BuildArgs) (w : BuildWorld) :
    (∀ o, buildMain a w = .ok o →
      ((o.exit = 0 ↔ ((o.ranBuild = true ∧ w.buildRc = 0) ∨ cancelSel a w)) ∧
       (o.exit = 0 ∨ o.exit = 1))) ∧
    (∀ x, buildMain a { w with lintRc := x } = buildMain a w) := by
  constructor
  · intro o ho
    rw [buildMain] at ho
    by_cases hf : (a.formatFlag && w.formatScriptExists && !(w.formatRc = 0)) = true
    · rw [if_pos hf] at ho
      injection ho with ho'
      subst ho'
      refine ⟨⟨fun h0 => absurd h0 (by decide), ?_⟩, Or.inr rfl⟩
      rintro (⟨hrb, _⟩ | hcan)
      · cases hrb
      · exact absurd hf (by rw [hcan.1]; decide)
    · rw [if_neg hf] at ho
      have hf' : (a.formatFlag && w.formatScriptExists && !(w.formatRc = 0)) = false :=
        Bool.eq_false_iff.mpr hf
      by_cases hsel : (!hasConfigArgs a && !a.skipConfigure && !a.noInteractive) = true
      · rw [if_pos hsel] at ho
        have hb := hsel
        simp only [Bool.and_eq_true, Bool.not_eq_true'] at hb
        obtain ⟨⟨hca, hsk⟩, hnia⟩ := hb
        cases hs : selectBuildDirInteractive w.configuredDirs w.selEvs with
        | error e =>
          rw [hs] at ho
          cases ho
        | ok sel =>
          rw [hs] at ho
          cases sel with
          | cancel =>
            injection ho with ho'
            subst ho'
            exact ⟨⟨fun _ => Or.inr ⟨hf', hca, hsk, hnia, hs⟩, fun _ => rfl⟩,
              Or.inl rfl⟩
          | build bt =>
            injection ho with ho'
            refine c4_from_phase a w (some bt) false bt o ho'.symm ?_
            intro hcan
            have hx := hcan.2.2.2.2
            rw [hs] at hx
            cases hx
          | configureNew =>
            injection ho with ho'
            refine c4_from_phase a w none true (a.typeArg.getD .release) o ho'.symm ?_
            intro hcan
            have hx := hcan.2.2.2.2
            rw [hs] at hx
            cases hx
          | reconfigure bt =>
            injection ho with ho'
            refine c4_from_phase a w (some bt) true bt o ho'.symm ?_
            intro hcan
            have hx := hcan.2.2.2.2
            rw [hs] at hx
            cases hx
      · rw [if_neg hsel] at ho
        simp only [] at ho
        injection ho with ho'
        refine c4_from_phase a w _ _ _ o ho'.symm ?_
        intro hcan
        obtain ⟨_, hca, hsk, hnia, _⟩ := hcan
        exact hsel (by rw [hca, hsk, hnia]; rfl)
  · intro x
    rfl

/-- Witness for C4: an ordinary non-interactive run that builds an existing
Release workspace successfully exits 0 with the build step run. -/
theorem c4_witness :
    (((⟨0, true⟩ : MainOut).exit = 0 ↔
      (((⟨0, true⟩ : MainOut).ranBuild = true ∧ (0 : Int) = 0) ∨
        cancelSel
          ⟨none, none, none, none, false, none, none, none, false, true, false,
            false, false⟩
          ⟨[], .linux, false, 0, [.release], some (.release, .linux), true, 0,
            some (.release, .linux), 0, false, 0, []⟩)) ∧
     ((⟨0, true⟩ : MainOut).exit = 0 ∨ (⟨0, true⟩ : MainOut).exit = 1)) :=
  (c4_exit_code
    ⟨none, none, none, none, false, none, none, none, false, true, false,
      false, false⟩
    ⟨[], .linux, false, 0, [.release], some (.release, .linux), true, 0,
      some (.release, .linux), 0, false, 0, []⟩).1 ⟨0, true⟩ rfl

/-! ## C1: propagation of collaborator failures -/

/-- Every terminating build.py run ends in the format-failure exit, the
cancel exit, or the post-selection phase. -/
theorem buildMain_shape (a : BuildArgs) (w : BuildWorld) (o : MainOut)
    (h : buildMain a w = .ok o) :
    o = ⟨1, false⟩ ∨ o = ⟨0, false⟩ ∨ ∃ d n v, o = buildPhase a w d n v := by
  rw [buildMain] at h
  split at h
  · cases h
    exact Or.inl rfl
  · split at h
    · cases hs : selectBuildDirInteractive w.configuredDirs w.selEvs with
      | error e =>
        rw [hs] at h
        cases h
      | ok sel =>
        rw [hs] at h
        cases sel <;> cases h
        · exact Or.inr (Or.inl rfl)
        · exact Or.inr (Or.inr ⟨_, _, _, rfl⟩)
        · exact Or.inr (Or.inr ⟨_, _, _, rfl⟩)
        · exact Or.inr (Or.inr ⟨_, _, _, rfl⟩)
    · simp only [] at h
      cases h
      exact Or.inr (Or.inr ⟨_, _, _, rfl⟩)

/-- C1, amended.  A non-zero exit of the build backend (the cmake configure
or build subprocess) makes the orchestrator exit 1 — a failure exit, but not
the backend's verbatim status; a non-zero exit of the dependency manager
(`install_deps.py`) is *tolerated*: Conan is disabled, the run continues,
and it can still exit 0 (third conjunct: a concrete interactive run whose
dependency install exits 5 and which nevertheless succeeds). -/
theorem c1_amended :
    (∀ a w ps bw r fs, configureMain a w ps bw = .ok (r, fs) →
      (r = 0 → w.cmakeConfigureRc = 0) ∧ (r = 0 ∨ r = 1)) ∧
    (∀ a v o, buildMain a v = .ok o → o.ranBuild = true → v.buildRc ≠ 0 →
      o.exit = 1) ∧
    configureMain ⟨none, some "gcc", none, false, none, none, true, false, false, false⟩
      ⟨.linux, ⟨true, false, false, false, none, true, false, false⟩, true, none,
        false, true, 5, false, 0⟩
      ⟨.text "2", [.text "n"], [.text "n"], .text "3", .text "", .text "", .text "",
        .text "", [], [], [.text "y"]⟩
      ⟨[], false, false, []⟩ = .ok (0, true) := by
  refine ⟨?_, ?_, rfl⟩
  · intro a w ps bw r fs h
    rw [configureMain] at h
    cases hres : resolveConfig a w ps bw with
    | error e =>
      rw [hres] at h
      cases h
    | ok ro =>
      rw [hres] at h
      cases ro with
      | none =>
        cases h
        exact ⟨fun h0 => absurd h0 (by decide), Or.inr rfl⟩
      | some core =>
        simp only [] at h
        split at h
        · cases h
          exact ⟨fun h0 => absurd h0 (by decide), Or.inr rfl⟩
        · split at h
          · cases h
            exact ⟨fun h0 => absurd h0 (by decide), Or.inr rfl⟩
          · rename_i hcc
            cases h
            simp only [cmakeConfigure, Bool.not_eq_true, Bool.not_eq_false,
              Bool.not_eq_true', decide_eq_true_eq] at hcc
            exact ⟨fun _ => hcc, Or.inl rfl⟩
  · intro a v o h hrb hrc
    rcases buildMain_shape a v o h with ho | ho | ⟨d, n, bt, ho⟩
    · rw [ho] at hrb
      cases hrb
    · rw [ho] at hrb
      cases hrb
    · rw [ho]
      exact (buildPhase_spec a v d n bt).2.2 (ho ▸ hrb) hrc

/-- C1 counterexample.  The claim demands that a non-zero dependency-manager
exit be propagated verbatim as the orchestrator's exit code ("never a
success (0) exit").  In this interactive run `install_deps.py` exits 3, yet
`setup_conan` merely disables Conan (configure.py lines 1122-1129) and the
run finishes with exit code 0. -/
theorem c1_counterexample :
    configureMain ⟨none, some "gcc", none, false, none, none, true, false, false, false⟩
      ⟨.linux, ⟨true, false, false, false, none, true, false, false⟩, true, none,
        false, true, 3, false, 0⟩
      ⟨.text "2", [.text "n"], [.text "n"], .text "3", .text "", .text "", .text "",
        .text "", [], [], [.text "y"]⟩
      ⟨[], false, false, []⟩ = .ok (0, true) ∧ (3 : Int) ≠ 0 :=
  ⟨rfl, by decide⟩

/-- Witness for C1: a run whose cmake configure subprocess exits 2
terminates with exit code 1 (non-zero, though not the verbatim 2). -/
theorem c1_witness :
    ((1 : Int) = 0 →
      (⟨.linux, ⟨true, false, false, false, none, true, false, false⟩, true, none,
        false, false, 0, false, 2⟩ : ConfigureWorld).cmakeConfigureRc = 0) ∧
    ((1 : Int) = 0 ∨ (1 : Int) = 1) :=
  c1_amended.1 ⟨none, none, none, false, none, none, false, false, false, true⟩
    ⟨.linux, ⟨true, false, false, false, none, true, false, false⟩, true, none,
      false, false, 0, false, 2⟩
    ⟨.text "", [], [], .text "", .text "", .text "", .text "", .text "", [], [], []⟩
    ⟨[], false, false, []⟩ 1 true rfl

end Helios
